import Mathlib

/-!
Shallow embedding of the tidalauth browser-automation engine
(`src/tidalauth/engine.py`, `src/tidalauth/utils.py`,
`src/tidalauth/__main__.py`) and proofs about it.

The Playwright page is abstracted as a function from query strings to the
list of matching DOM elements in document order; a `Locator` is the list of
elements it points at, so `locator.count()` is its length, `locator.nth(i)`
is the singleton of its i-th element, `locator.all()` its elements, and
`locator.is_visible()` the visibility of its first element (false when it
resolves to zero elements).
-/

/-- A DOM element: an identity (document-order index) and whether
`is_visible()` holds for it right now. -/
structure Elem where
  id : Nat
  visible : Bool
deriving DecidableEq, Repr

/-- A Playwright locator, abstracted as the list of elements it points at,
in document order. -/
abbrev Locator := List Elem

/-- `SelectorType` from `utils.py` (CSS / ID / XPATH). -/
inductive SelectorType where
  | css
  | id
  | xpath
deriving DecidableEq, Repr

/-- `locator.count()`. -/
def locator_count (l : Locator) : Nat := l.length

/-- `locator.is_visible()`: visibility of the first element the locator
resolves to; false when it resolves to zero elements. -/
def locator_is_visible (l : Locator) : Bool :=
  (l.head?.map Elem.visible).getD false

/-- `PlaywrightEngine._get_selector` (engine.py lines 97-106): ID becomes a
CSS id query, XPATH is tagged, CSS passes through. -/
def get_selector (selector : String) : SelectorType → String
  | SelectorType.xpath => "xpath=" ++ selector
  | SelectorType.id => "#" ++ selector
  | SelectorType.css => selector

/-- The `selector: str | Locator` union taken by several engine methods:
either a raw string selector or an already-resolved locator. -/
inductive SelectorInput where
  | loc (l : Locator)
  | sel (s : String)

/-- The two failure kinds `_get_locator` raises (as `ValueError`s):
"Element not found: ..." and "Visible element not found: ...". -/
inductive LocatorError where
  | elementNotFound
  | elementNotVisible
deriving DecidableEq, Repr

/-- `PlaywrightEngine._get_locator` (engine.py lines 108-133).  A `Locator`
input is passed through unchanged.  A string selector is translated by
`_get_selector` and queried against the page (`page` maps a query string to
its matches in document order).  Zero matches raise "Element not found";
more than one match scans `locator.nth(i)` in document order and returns
the first visible one (`List.find?`), raising "Visible element not found"
when none is; exactly one match returns the locator itself, with no
visibility check. -/
def get_locator (page : String → Locator) :
    SelectorInput → SelectorType → Except LocatorError Locator
  | SelectorInput.loc l, _ => Except.ok l
  | SelectorInput.sel s, ty =>
    let locator := page (get_selector s ty)
    let count := locator_count locator
    if count = 0 then
      Except.error LocatorError.elementNotFound
    else if 1 < count then
      match locator.find? (fun e => e.visible) with
      | some e => Except.ok [e]
      | none => Except.error LocatorError.elementNotVisible
    else
      Except.ok locator

/-- `PlaywrightEngine.element_exists` (engine.py lines 260-272).  The body
is a Python conditional expression: `return locator.count() > 0 and
any(loc.is_visible() for loc in locator.all()) if check_visible else True`,
which parses as `(count > 0 and any visible) if check_visible else True`. -/
def element_exists (page : String → Locator) (input : SelectorInput)
    (ty : SelectorType) (check_visible : Bool) : Bool :=
  match input with
  | SelectorInput.loc l =>
    if check_visible then
      decide (locator_count l > 0) && l.any (fun e => e.visible)
    else true
  | SelectorInput.sel s =>
    let locator := page (get_selector s ty)
    if check_visible then
      decide (locator_count locator > 0) && locator.any (fun e => e.visible)
    else true

/-- `PlaywrightEngine.assert_element_not_visible` (engine.py lines 274-287):
raises `AssertionError` when `locator.is_visible() or locator.count() > 0`
holds, succeeds otherwise. -/
def assert_element_not_visible (page : String → Locator)
    (input : SelectorInput) (ty : SelectorType) : Except String Unit :=
  let locator : Locator :=
    match input with
    | SelectorInput.loc l => l
    | SelectorInput.sel s => page (get_selector s ty)
  if locator_is_visible locator || decide (locator_count locator > 0) then
    Except.error "Element not visible assertion failed"
  else
    Except.ok ()

/-!
Argument rendering of the `report_status` decorator (`utils.py` lines
60-91).  An argument is either a plain value (rendered by Python `str`) or
a pydantic `SecretStr` wrapping a plaintext; `str` on a `SecretStr` yields
the fixed placeholder `**********`, while `get_str_value` unwraps it.
-/

/-- An argument value handed to a wrapped engine method: a plain value or a
`SecretStr`-wrapped plaintext. -/
inductive ArgValue where
  | plain (s : String)
  | secret (s : String)
deriving DecidableEq, Repr

/-- Python `str(arg)` as used for positional arguments (utils.py line 72):
a `SecretStr` renders as the fixed `**********` placeholder. -/
def py_str : ArgValue → String
  | ArgValue.plain s => s
  | ArgValue.secret _ => "**********"

/-- `get_str_value` (utils.py lines 60-61): unwraps a `SecretStr` to its
plaintext, otherwise `str`. -/
def get_str_value : ArgValue → String
  | ArgValue.plain s => s
  | ArgValue.secret s => s

/-- One keyword-argument fragment of the call description (utils.py line
73). -/
def kwarg_part (kv : String × ArgValue) : String :=
  kv.1 ++ "=" ++ get_str_value kv.2

/-- The call description `report_status` builds (utils.py lines 72-77):
positional arguments through `str`, keyword arguments through
`get_str_value`, joined by ", " inside `name (...)`. -/
def call_description (name : String) (args : List ArgValue)
    (kwargs : List (String × ArgValue)) : String :=
  let args_parts := args.map py_str
  let kwargs_parts := kwargs.map kwarg_part
  name ++ " (" ++ String.intercalate ", " (args_parts ++ kwargs_parts) ++ ")"

/-- Two argument lists of the same shape, differing at most in the
plaintexts inside their secret-wrapped values. -/
inductive SameShape : ArgValue → ArgValue → Prop
  | plain (s : String) : SameShape (ArgValue.plain s) (ArgValue.plain s)
  | secret (a b : String) : SameShape (ArgValue.secret a) (ArgValue.secret b)

/-!
The retry wrapper `retry_with_backoff` (`utils.py` lines 40-57).  It is the
tenacity combinator `retry(stop=stop_after_attempt(5),
wait=wait_exponential(multiplier=1, min=1, max=30), reraise=True)`.  An
operation is modelled as the map from attempt number (1-based) to that
attempt's outcome; running the wrapper yields the final outcome together
with the list of backoff waits (in seconds) performed between attempts.
-/

/-- tenacity `wait_exponential.__call__`: the wait after a failed attempt
numbered `attempt_number` is `max (max 0 mn) (min (multiplier * 2 ^
attempt_number) mx)`. -/
def wait_exponential (multiplier mn mx attempt_number : Nat) : Nat :=
  max (max 0 mn) (min (multiplier * 2 ^ attempt_number) mx)

/-- The wait performed after failed attempt `k`, with the parameters from
`retry_with_backoff`: multiplier 1, floor 1, ceiling 30. -/
def backoff_wait (k : Nat) : Nat :=
  wait_exponential 1 1 30 k

/-- The tenacity retry loop: try attempt `n`; on success stop, on failure
either re-raise that exact error when no attempt remains (`stop_after_attempt`
exhausted, `reraise=True`) or wait `backoff_wait n` and continue with
attempt `n + 1`.  `fuel` counts the attempts still allowed after `n`. -/
def retry_attempt_loop {E A : Type} (attempts : Nat → Except E A) :
    Nat → Nat → Except E A × List Nat
  | n, 0 => (attempts n, [])
  | n, fuel + 1 =>
    match attempts n with
    | Except.ok a => (Except.ok a, [])
    | Except.error _ =>
      let rest := retry_attempt_loop attempts (n + 1) fuel
      (rest.1, backoff_wait n :: rest.2)

/-- `retry_with_backoff` (utils.py lines 40-57): at most 5 total attempts,
starting at attempt 1 with 4 attempts remaining. -/
def retry_with_backoff {E A : Type} (attempts : Nat → Except E A) :
    Except E A × List Nat :=
  retry_attempt_loop attempts 1 4

/-!
The `report_status` decorator (`utils.py` lines 64-91) and its composition
with the retry wrapper.  Exceptions are rendered as strings (the decorator
interpolates `{e}` into the failure report).
-/

/-- The kind of a `self.report` call made by `report_status`. -/
inductive ReportKind where
  | attempting
  | succeeded
  | failed
deriving DecidableEq, Repr

/-- The reports `report_status` emits around one call of the wrapped
function (utils.py lines 80-87): one "Calling ..." before the call, then
exactly one of "Called ... successfully" / "Failed to call ...: e". -/
def report_status_events {A : Type} (func_call : String)
    (result : Except String A) : List (ReportKind × String) :=
  (ReportKind.attempting, "Calling " ++ func_call) ::
    match result with
    | Except.ok _ =>
      [(ReportKind.succeeded, "Called " ++ func_call ++ " successfully")]
    | Except.error e =>
      [(ReportKind.failed, "Failed to call " ++ func_call ++ ": " ++ e)]

/-- A top-level engine operation as decorated in `engine.py` (for example
`navigate`, lines 135-137): `@report_status` outermost over
`@retry_with_backoff` over the core action.  Returns the final outcome,
the backoff waits performed, and the reports emitted. -/
def wrapped_operation {A : Type} (func_call : String)
    (attempts : Nat → Except String A) :
    Except String A × List Nat × List (ReportKind × String) :=
  let r := retry_with_backoff attempts
  (r.1, r.2, report_status_events func_call r.1)

/-!
The main flow (`__main__.py` lines 9-42) and the session lifecycle
(`engine.py` lines 22-88).  `main` is modelled as the trace of engine
events it performs for a given auth-check response body (the text of a
successful GET to `<base>/auth`).
-/

/-- Python `str.isspace` for the ASCII whitespace characters `str.strip`
removes. -/
def py_is_space (c : Char) : Bool :=
  c = ' ' || c = '\t' || c = '\n' || c = '\r' || c = '\x0b' || c = '\x0c'

/-- Python `str.strip()`: drop whitespace from both ends. -/
def py_strip (s : String) : String :=
  ⟨((s.data.dropWhile py_is_space).reverse.dropWhile py_is_space).reverse⟩

/-- Does `needle` start `hay`? (helper for the Python `in` operator). -/
def leads_with : List Char → List Char → Bool
  | [], _ => true
  | _ :: _, [] => false
  | a :: as, b :: bs => a = b && leads_with as bs

/-- Does `needle` occur contiguously in `hay`? -/
def occurs_in : List Char → List Char → Bool
  | needle, [] => leads_with needle []
  | needle, b :: bs => leads_with needle (b :: bs) || occurs_in needle bs

/-- The Python expression `needle in hay` on strings: substring test. -/
def py_contains (hay needle : String) : Bool :=
  occurs_in needle.data hay.data

/-- The marker substring `__main__.py` line 31 looks for. -/
def tidal_link : String := "https://link.tidal.com"

/-- An observable engine event of the main flow. -/
inductive MainEvent where
  | setup
  | logInfo (msg : String)
  | navigate (url : String)
  | teardown
deriving DecidableEq, Repr

/-- `main` (`__main__.py` lines 9-42), as the trace of engine events it
performs given the auth-check response body: `engine.setup()`, then either
the short-circuit log and return (body without the marker substring) or
the log and the single `engine.navigate(content.strip())` call.  No other
engine call appears in `main`; in particular it never calls
`engine.teardown()`. -/
def main_trace (content : String) : List MainEvent :=
  [MainEvent.setup] ++
    (if py_contains content tidal_link then
      [MainEvent.logInfo ("Authorization is required, URL: " ++ py_strip content),
       MainEvent.navigate (py_strip content)]
    else
      [MainEvent.logInfo "Authorization does not seem required"])

/-- The `navigate` calls of a trace, in order. -/
def navigations (t : List MainEvent) : List String :=
  t.filterMap (fun e =>
    match e with
    | MainEvent.navigate u => some u
    | _ => none)

/-!
Session lifecycle (`engine.py` lines 14-88).  A handle field is `none`
before `setup` assigns it; closing a handle flips its state but leaves the
field assigned, exactly as `teardown` closes resources without clearing
`self._page` / `self._context` / `self._browser` / `self._playwright`.
-/

/-- The page handle: whether `close()` has been called on it. -/
structure PageHandle where
  closed : Bool
deriving DecidableEq, Repr

/-- The engine's lifecycle fields (`__init__`, engine.py lines 15-20):
each starts as `None`.  The browser / context / playwright handles are
abstracted to their open flag. -/
structure EngineState where
  _playwright : Option Bool
  _browser : Option Bool
  _context : Option Bool
  _page : Option PageHandle
deriving DecidableEq, Repr

/-- `PlaywrightEngine.__init__`: every field `None`. -/
def engine_init : EngineState :=
  { _playwright := none, _browser := none, _context := none, _page := none }

/-- `setup` (engine.py lines 22-54): assigns all four fields, opening one
fresh page. -/
def setup (_s : EngineState) : EngineState :=
  { _playwright := some true, _browser := some true, _context := some true,
    _page := some { closed := false } }

/-- `teardown` (engine.py lines 56-67): closes each resource that is
assigned (truthy), but assigns no field, so each stays `some` if it was. -/
def teardown (s : EngineState) : EngineState :=
  { _playwright := s._playwright.map (fun _ => false),
    _browser := s._browser.map (fun _ => false),
    _context := s._context.map (fun _ => false),
    _page := s._page.map (fun _ => { closed := true }) }

/-- The `page` property (engine.py lines 84-88): raises
`ValueError("Page not initialized. Please call setup first.")` when
`self._page` is unassigned, otherwise returns the stored handle as is. -/
def page (s : EngineState) : Except String PageHandle :=
  match s._page with
  | none => Except.error "Page not initialized. Please call `setup` first."
  | some p => Except.ok p

/-- A lifecycle call the caller may make on the engine. -/
inductive LifecycleOp where
  | setup
  | teardown
deriving DecidableEq, Repr

/-- Apply one lifecycle call. -/
def lifecycle_step (s : EngineState) : LifecycleOp → EngineState
  | LifecycleOp.setup => setup s
  | LifecycleOp.teardown => teardown s

/-- Run a sequence of lifecycle calls on a fresh engine. -/
def run_ops (ops : List LifecycleOp) : EngineState :=
  ops.foldl lifecycle_step engine_init

/-- Is a lifecycle call a `setup`? -/
def is_setup : LifecycleOp → Bool
  | LifecycleOp.setup => true
  | LifecycleOp.teardown => false

/-!
Theorems.
-/

/-- Claim C5: selector resolution follows the documented case analysis:
with exactly one match that is visible it returns that match; with zero
matches it fails with ElementNotFound; with more than one match and a
first visible one (`List.find?`, document order) it returns that first
visible match; with more than one match and none visible it fails with
ElementNotVisible. -/
theorem get_locator_case_analysis (page : String → Locator) (s : String)
    (ty : SelectorType) :
    (∀ e : Elem, page (get_selector s ty) = [e] → e.visible = true →
        get_locator page (SelectorInput.sel s) ty = Except.ok [e])
    ∧ (page (get_selector s ty) = [] →
        get_locator page (SelectorInput.sel s) ty
          = Except.error LocatorError.elementNotFound)
    ∧ (∀ e : Elem, 1 < (page (get_selector s ty)).length →
        (page (get_selector s ty)).find? (fun x => x.visible) = some e →
        get_locator page (SelectorInput.sel s) ty = Except.ok [e])
    ∧ (1 < (page (get_selector s ty)).length →
        (∀ e ∈ page (get_selector s ty), e.visible = false) →
        get_locator page (SelectorInput.sel s) ty
          = Except.error LocatorError.elementNotVisible) := by
  refine ⟨?_, ?_, ?_, ?_⟩
  · intro e h _
    simp [get_locator, locator_count, h]
  · intro h
    simp [get_locator, locator_count, h]
  · intro e hlen hfind
    have h0 : ¬ (page (get_selector s ty)).length = 0 := by omega
    simp [get_locator, locator_count, h0, hlen, hfind]
  · intro hlen hall
    have hfind : (page (get_selector s ty)).find? (fun x => x.visible) = none := by
      rw [List.find?_eq_none]
      intro x hx
      simp [hall x hx]
    have h0 : ¬ (page (get_selector s ty)).length = 0 := by omega
    simp [get_locator, locator_count, h0, hlen, hfind]

/-- Witness for C5: the three resolution outcomes at concrete match lists:
first visible of several, zero matches, several matches none visible. -/
theorem get_locator_case_witness :
    get_locator (fun _ => [⟨0, false⟩, ⟨1, true⟩, ⟨2, true⟩])
        (SelectorInput.sel "q") SelectorType.css = Except.ok [⟨1, true⟩]
    ∧ get_locator (fun _ => []) (SelectorInput.sel "q") SelectorType.css
        = Except.error LocatorError.elementNotFound
    ∧ get_locator (fun _ => [⟨0, false⟩, ⟨1, false⟩])
        (SelectorInput.sel "q") SelectorType.css
        = Except.error LocatorError.elementNotVisible := by
  refine ⟨?_, ?_, ?_⟩
  · exact (get_locator_case_analysis (fun _ => [⟨0, false⟩, ⟨1, true⟩, ⟨2, true⟩])
      "q" SelectorType.css).2.2.1 ⟨1, true⟩ (by decide) (by decide)
  · exact (get_locator_case_analysis (fun _ => []) "q" SelectorType.css).2.1 rfl
  · exact (get_locator_case_analysis (fun _ => [⟨0, false⟩, ⟨1, false⟩])
      "q" SelectorType.css).2.2.2 (by decide) (by decide)

/-- Counterexample to C4 as stated: a selector with exactly one match that
is hidden resolves successfully to that hidden element — `_get_locator`
checks visibility only in the multiple-match branch. -/
theorem get_locator_hidden_single_cex :
    get_locator (fun _ => [⟨0, false⟩]) (SelectorInput.sel "x") SelectorType.css
        = Except.ok [⟨0, false⟩]
    ∧ (Elem.mk 0 false).visible = false :=
  ⟨rfl, rfl⟩

/-- Claim C4 (amended): every successful resolution of a raw selector
returns a handle on exactly one element of the match list, and that
element is guaranteed visible when the selector had more than one match;
zero matches fail with ElementNotFound.  (A unique match is returned even
when hidden, which is what refutes the claim as stated.) -/
theorem get_locator_resolution_invariant (page : String → Locator) (s : String)
    (ty : SelectorType) :
    (∀ l, get_locator page (SelectorInput.sel s) ty = Except.ok l →
        ∃ e, l = [e] ∧ e ∈ page (get_selector s ty) ∧
          (1 < (page (get_selector s ty)).length → e.visible = true))
    ∧ (page (get_selector s ty) = [] →
        get_locator page (SelectorInput.sel s) ty
          = Except.error LocatorError.elementNotFound) := by
  constructor
  · intro l hl
    simp only [get_locator, locator_count] at hl
    split at hl
    · exact absurd hl (by simp)
    · next h0 =>
      split at hl
      · next h1 =>
        split at hl
        · next e hfind =>
          refine ⟨e, (Except.ok.inj hl).symm, ?_, fun _ => ?_⟩
          · exact List.mem_of_find?_eq_some hfind
          · simpa using List.find?_some hfind
        · exact absurd hl (by simp)
      · next h1 =>
        have hone : (page (get_selector s ty)).length = 1 := by omega
        obtain ⟨e, he⟩ := List.length_eq_one.mp hone
        refine ⟨e, ?_, by simp [he], fun h => by omega⟩
        have : l = page (get_selector s ty) := by
          simpa using hl.symm
        rw [this, he]
  · intro h
    simp [get_locator, locator_count, h]

/-- Witness for C4 (amended): applying the invariant to the successful
resolution of a two-match selector whose second element is the visible
one. -/
theorem get_locator_invariant_witness :
    ∃ e : Elem, ([Elem.mk 1 true] : Locator) = [e]
      ∧ e ∈ ([Elem.mk 0 false, Elem.mk 1 true] : Locator)
      ∧ (1 < ([Elem.mk 0 false, Elem.mk 1 true] : Locator).length
          → e.visible = true) :=
  (get_locator_resolution_invariant (fun _ => [Elem.mk 0 false, Elem.mk 1 true])
    "q" SelectorType.css).1 [Elem.mk 1 true] rfl

/-- Claim C2: `assert_element_not_visible` evaluated on the three page
shapes.  Absent succeeds and present-and-visible fails as claimed, but
present-but-hidden also fails: the condition `is_visible() or count() > 0`
is true for any present element, so the claim's "succeeds when present but
hidden" is violated by the code (contradicting the method's own
docstring). -/
theorem assert_element_not_visible_eval :
    assert_element_not_visible (fun _ => []) (SelectorInput.sel "x")
        SelectorType.css = Except.ok ()
    ∧ assert_element_not_visible (fun _ => [⟨0, false⟩]) (SelectorInput.sel "x")
        SelectorType.css = Except.error "Element not visible assertion failed"
    ∧ assert_element_not_visible (fun _ => [⟨0, true⟩]) (SelectorInput.sel "x")
        SelectorType.css = Except.error "Element not visible assertion failed" :=
  ⟨rfl, rfl, rfl⟩

/-- Claim C3: `element_exists` with `check_visible = false` returns true
even for a selector with zero matches (the Python conditional expression
makes the whole return value `True` in that mode), refuting the claimed
"true iff count > 0"; with the default `check_visible = true` it is
exactly "some match is visible", as claimed. -/
theorem element_exists_eval (page : String → Locator) (s : String)
    (ty : SelectorType) :
    element_exists (fun _ => []) (SelectorInput.sel "q") SelectorType.css false
        = true
    ∧ element_exists page (SelectorInput.sel s) ty true
        = (decide (0 < (page (get_selector s ty)).length)
            && (page (get_selector s ty)).any (fun e => e.visible)) :=
  ⟨rfl, rfl⟩

/-- Counterexample to C1 as stated: a secret passed by keyword is rendered
through `get_str_value`, which unwraps it, so the reported call
description contains the plaintext, and two calls differing only in the
secret's plaintext produce different report text. -/
theorem report_secret_kwarg_cex :
    py_contains (call_description "fill" [] [("value", ArgValue.secret "hunter2")])
        "hunter2" = true
    ∧ call_description "fill" [] [("value", ArgValue.secret "hunter2")]
        ≠ call_description "fill" [] [("value", ArgValue.secret "s3cret")] := by
  decide

/-- Claim C1 (amended): secrets passed positionally are redacted — two
argument lists of the same shape, differing only in the plaintexts inside
secret-wrapped values, produce identical report text (Python `str` renders
a SecretStr as the fixed placeholder) — while a secret passed by keyword
is unwrapped verbatim into its `k=plaintext` fragment. -/
theorem report_redaction_amended (name : String)
    (kwargs : List (String × ArgValue)) :
    (∀ args₁ args₂ : List ArgValue, List.Forall₂ SameShape args₁ args₂ →
        call_description name args₁ kwargs = call_description name args₂ kwargs)
    ∧ (∀ k s : String, kwarg_part (k, ArgValue.secret s) = k ++ "=" ++ s) := by
  constructor
  · intro a1 a2 h
    have hmap : a1.map py_str = a2.map py_str := by
      induction h with
      | nil => rfl
      | cons hab _ ih => cases hab <;> simp [py_str, ih]
    simp [call_description, hmap]
  · intro k s
    rfl

/-- Witness for C1 (amended): two concrete positional calls differing only
in the secret's plaintext yield the same description. -/
theorem report_redaction_witness :
    call_description "fill" [ArgValue.secret "hunter2", ArgValue.plain "input"] []
      = call_description "fill" [ArgValue.secret "pw", ArgValue.plain "input"] [] :=
  (report_redaction_amended "fill" []).1 _ _
    (List.Forall₂.cons (SameShape.secret "hunter2" "pw")
      (List.Forall₂.cons (SameShape.plain "input") List.Forall₂.nil))

/-- The retry loop performs the waits `backoff_wait n, backoff_wait (n+1),
...`, one per failed attempt, never more than `fuel` of them. -/
lemma retry_waits_shape {E A : Type} (attempts : Nat → Except E A) (n fuel : Nat) :
    ∃ m, m ≤ fuel ∧ (retry_attempt_loop attempts n fuel).2
      = (List.range' n m).map backoff_wait := by
  induction fuel generalizing n with
  | zero => exact ⟨0, Nat.le_refl 0, by simp [retry_attempt_loop]⟩
  | succ fuel ih =>
    cases h : attempts n with
    | ok a => exact ⟨0, Nat.zero_le _, by simp [retry_attempt_loop, h]⟩
    | error e =>
      obtain ⟨m, hm, heq⟩ := ih (n + 1)
      refine ⟨m + 1, by omega, ?_⟩
      simp [retry_attempt_loop, h, heq, List.range'_succ]

/-- Every backoff wait respects the 30-second ceiling. -/
lemma backoff_wait_le (k : Nat) : backoff_wait k ≤ 30 := by
  have h1 : min (1 * 2 ^ k) 30 ≤ 30 := Nat.min_le_right _ _
  simp only [backoff_wait, wait_exponential]
  omega

/-- Claim C6: the retry wrapper performs at most 4 backoff waits (hence at
most 5 attempts), the wait after failed attempt `k` is
`min (2 ^ k) 30` with floor 1 second, the waits are non-decreasing and
capped at 30; failing 4 times then succeeding on the 5th returns the
success value after exactly the 4 waits [2, 4, 8, 16]; failing all 5
re-raises the exact error of the 5th attempt. -/
theorem retry_with_backoff_spec {E A : Type} (attempts : Nat → Except E A) :
    (∃ m, m ≤ 4 ∧ (retry_with_backoff attempts).2
        = (List.range' 1 m).map backoff_wait)
    ∧ (retry_with_backoff attempts).2.length ≤ 4
    ∧ (∀ k, backoff_wait k = max 1 (min (2 ^ k) 30))
    ∧ List.Chain' (fun a b => a ≤ b) (retry_with_backoff attempts).2
    ∧ (∀ w ∈ (retry_with_backoff attempts).2, w ≤ 30)
    ∧ (∀ a : A, (∀ k, 1 ≤ k → k ≤ 4 → ∃ e, attempts k = Except.error e) →
        attempts 5 = Except.ok a →
        retry_with_backoff attempts = (Except.ok a, [2, 4, 8, 16]))
    ∧ (∀ e₅ : E, (∀ k, 1 ≤ k → k ≤ 4 → ∃ e, attempts k = Except.error e) →
        attempts 5 = Except.error e₅ →
        retry_with_backoff attempts = (Except.error e₅, [2, 4, 8, 16])) := by
  obtain ⟨m, hm, heq0⟩ := retry_waits_shape attempts 1 4
  have heq : (retry_with_backoff attempts).2 = (List.range' 1 m).map backoff_wait :=
    heq0
  refine ⟨⟨m, hm, heq⟩, ?_, ?_, ?_, ?_, ?_, ?_⟩
  · rw [heq]; simp; omega
  · intro k
    simp [backoff_wait, wait_exponential]
  · rw [heq]
    interval_cases m <;> simp [List.range'] <;> decide
  · intro w hw
    rw [heq] at hw
    simp at hw
    obtain ⟨k, _, hk⟩ := hw
    exact hk ▸ backoff_wait_le k
  · intro a h h5
    obtain ⟨e1, h1⟩ := h 1 (by omega) (by omega)
    obtain ⟨e2, h2⟩ := h 2 (by omega) (by omega)
    obtain ⟨e3, h3⟩ := h 3 (by omega) (by omega)
    obtain ⟨e4, h4⟩ := h 4 (by omega) (by omega)
    simp [retry_with_backoff, retry_attempt_loop, h1, h2, h3, h4, h5,
      backoff_wait, wait_exponential]
  · intro e₅ h h5
    obtain ⟨e1, h1⟩ := h 1 (by omega) (by omega)
    obtain ⟨e2, h2⟩ := h 2 (by omega) (by omega)
    obtain ⟨e3, h3⟩ := h 3 (by omega) (by omega)
    obtain ⟨e4, h4⟩ := h 4 (by omega) (by omega)
    simp [retry_with_backoff, retry_attempt_loop, h1, h2, h3, h4, h5,
      backoff_wait, wait_exponential]

/-- Witness for C6: a concrete operation failing attempts 1-4 and
succeeding on the 5th returns the success value after exactly the waits
[2, 4, 8, 16]. -/
theorem retry_with_backoff_witness :
    retry_with_backoff
        (fun k => if k ≤ 4 then Except.error ("boom" ++ toString k) else Except.ok 42)
      = (Except.ok 42, [2, 4, 8, 16]) :=
  (retry_with_backoff_spec
      (fun k => if k ≤ 4 then Except.error ("boom" ++ toString k)
        else Except.ok 42)).2.2.2.2.2.1
    42 (fun k _ h4 => ⟨"boom" ++ toString k, by simp [h4]⟩) rfl

/-- Claim C7: a top-level wrapped operation (report decorator outermost,
retry inside, as on `navigate`) emits exactly one "attempting" report and
exactly one terminal ("succeeded" or "failed") report, for every possible
sequence of internal attempt outcomes. -/
theorem report_once_per_call {A : Type} (func_call : String)
    (attempts : Nat → Except String A) :
    ((wrapped_operation func_call attempts).2.2.countP
        (fun ev => ev.1 == ReportKind.attempting) = 1)
    ∧ ((wrapped_operation func_call attempts).2.2.countP
        (fun ev => ev.1 == ReportKind.succeeded || ev.1 == ReportKind.failed)
        = 1) := by
  cases h : (retry_with_backoff attempts).1 with
  | ok a =>
    simp [wrapped_operation, report_status_events, h, List.countP_cons]
  | error e =>
    simp [wrapped_operation, report_status_events, h, List.countP_cons]

/-- Counterexample to C8 as stated: on a concrete short-circuiting body
and on a concrete navigating body, the main flow's event trace contains no
teardown call. -/
theorem main_no_teardown_cex :
    MainEvent.teardown ∉ main_trace "Authorization not required"
    ∧ MainEvent.teardown ∉ main_trace "https://link.tidal.com/abc123" := by
  decide

/-- Claim C8 (amended): the main flow never invokes teardown on the
Session — neither on the short-circuit path nor on the navigate path; the
browser resources are released only by process termination. -/
theorem main_never_teardown (content : String) :
    MainEvent.teardown ∉ main_trace content := by
  unfold main_trace
  cases h : py_contains content tidal_link <;> simp [h]

/-- Claim C9: `navigate` is never called when the auth-check response body
lacks the substring "https://link.tidal.com", and is called exactly once,
with the whitespace-stripped body as its exact URL argument, when the body
contains it. -/
theorem main_navigation_spec (content : String) :
    (py_contains content tidal_link = false →
        navigations (main_trace content) = [])
    ∧ (py_contains content tidal_link = true →
        navigations (main_trace content) = [py_strip content]) := by
  constructor <;> intro h <;> simp [main_trace, navigations, h]

/-- Witness for C9: a body without the marker yields no navigation; the
body " https://link.tidal.com/abc123\n" yields exactly one navigation to
the trimmed URL. -/
theorem main_navigation_witness :
    navigations (main_trace "Authorization not required") = []
    ∧ navigations (main_trace " https://link.tidal.com/abc123\n")
        = ["https://link.tidal.com/abc123"] := by
  constructor
  · exact (main_navigation_spec "Authorization not required").1 (by decide)
  · have h := (main_navigation_spec " https://link.tidal.com/abc123\n").2 (by decide)
    rw [h]
    decide

/-- The `page` property succeeds exactly when `_page` is assigned. -/
lemma page_ok_iff (s : EngineState) :
    (∃ p, page s = Except.ok p) ↔ s._page.isSome = true := by
  cases h : s._page <;> simp [page, h]

/-- Running lifecycle calls leaves `_page` assigned exactly when it
already was or some `setup` occurred: `teardown` never clears it. -/
lemma run_ops_page_isSome (ops : List LifecycleOp) (s : EngineState) :
    ((ops.foldl lifecycle_step s)._page).isSome
      = (s._page.isSome || ops.any is_setup) := by
  induction ops generalizing s with
  | nil => simp
  | cons op ops ih =>
    cases op with
    | setup =>
      simp [List.foldl_cons, lifecycle_step, ih, setup, is_setup]
    | teardown =>
      have hmap : ((teardown s)._page).isSome = s._page.isSome := by
        cases h : s._page <;> simp [teardown, h]
      simp [List.foldl_cons, lifecycle_step, ih, is_setup, hmap]

/-- Claim C10: over any sequence of setup/teardown calls on a fresh
engine, the `page` property succeeds (no NotInitialized failure) exactly
when `setup` was called at least once; `teardown` clears none of the four
session fields; and after setup followed by teardown the property still
returns the now-closed page handle. -/
theorem page_not_initialized_iff (ops : List LifecycleOp) :
    ((∃ p, page (run_ops ops) = Except.ok p) ↔ LifecycleOp.setup ∈ ops)
    ∧ (∀ s : EngineState,
        ((teardown s)._page.isSome = s._page.isSome)
        ∧ ((teardown s)._context.isSome = s._context.isSome)
        ∧ ((teardown s)._browser.isSome = s._browser.isSome)
        ∧ ((teardown s)._playwright.isSome = s._playwright.isSome))
    ∧ page (run_ops [LifecycleOp.setup, LifecycleOp.teardown])
        = Except.ok { closed := true } := by
  refine ⟨?_, ?_, rfl⟩
  · rw [page_ok_iff, run_ops, run_ops_page_isSome]
    simp [engine_init]
    constructor
    · intro ⟨x, hx, hsx⟩
      cases x with
      | setup => exact hx
      | teardown => exact absurd hsx (by simp [is_setup])
    · intro hs
      exact ⟨LifecycleOp.setup, hs, rfl⟩
  · intro s
    refine ⟨?_, ?_, ?_, ?_⟩ <;> simp [teardown]

/-- Witness for C10: after setup then teardown the page accessor still
succeeds; with teardown alone (no setup ever) it does not. -/
theorem page_lifecycle_witness :
    (∃ p, page (run_ops [LifecycleOp.setup, LifecycleOp.teardown]) = Except.ok p)
    ∧ ¬ (∃ p, page (run_ops [LifecycleOp.teardown]) = Except.ok p) := by
  constructor
  · exact (page_not_initialized_iff [LifecycleOp.setup, LifecycleOp.teardown]).1.mpr
      (by decide)
  · intro h
    exact absurd ((page_not_initialized_iff [LifecycleOp.teardown]).1.mp h) (by decide)
